import Mathlib

set_option maxRecDepth 8000

/-!
Shallow embedding of the Loongson-3 platform glue: the LS7A north-bridge
(hw/pci-host/ls7a.c) and the Loongson-3 machine and boot-parameter builder
(hw/mips/mips_loongson3.c). Machine integers are modelled as Nat with
explicit masks and moduli where the C code can wrap.
-/

/-- PCI configuration space modelled as a byte-indexed store
(each cell holds one byte value). -/
abbrev ConfigSpace := Nat → Nat

/-- A uint8 read from a configuration-space cell. -/
def readByte (c : ConfigSpace) (a : Nat) : Nat := c a % 256

/-- pci_set_byte: store one byte (uint8 truncation). -/
def pci_set_byte (c : ConfigSpace) (a v : Nat) : ConfigSpace :=
  fun x => if x = a then v % 256 else c x

/-- pci_set_word: little-endian 16-bit store, as the pci.h accessor. -/
def pci_set_word (c : ConfigSpace) (a v : Nat) : ConfigSpace :=
  pci_set_byte (pci_set_byte c a (v % 256)) (a + 1) (v / 256 % 256)

/-- pci_set_long: little-endian 32-bit store, as the pci.h accessor. -/
def pci_set_long (c : ConfigSpace) (a v : Nat) : ConfigSpace :=
  pci_set_byte
    (pci_set_byte
      (pci_set_byte
        (pci_set_byte c a (v % 256))
        (a + 1) (v / 256 % 256))
      (a + 2) (v / 65536 % 256))
    (a + 3) (v / 16777216 % 256)

/-- Little-endian 16-bit read of configuration space. -/
def pci_get_word (c : ConfigSpace) (a : Nat) : Nat :=
  readByte c a + 256 * readByte c (a + 1)

/-- Little-endian 32-bit read of configuration space. -/
def pci_get_long (c : ConfigSpace) (a : Nat) : Nat :=
  readByte c a + 256 * readByte c (a + 1) +
    65536 * readByte c (a + 2) + 16777216 * readByte c (a + 3)

def PCI_BASE_ADDRESS_0 : Nat := 0x10
def PCI_BASE_ADDRESS_1 : Nat := 0x14
def PCI_BASE_ADDRESS_2 : Nat := 0x18
def PCI_BASE_ADDRESS_3 : Nat := 0x1c
def PCI_BASE_ADDRESS_4 : Nat := 0x20
def PCI_BASE_ADDRESS_5 : Nat := 0x24
def PCI_CARDBUS_CIS : Nat := 0x28
def PCI_INTERRUPT_PIN : Nat := 0x3d

/-- Reading back the byte just stored. -/
theorem readByte_set_self (c : ConfigSpace) (a v : Nat) :
    readByte (pci_set_byte c a v) a = v % 256 := by
  simp [readByte, pci_set_byte]

/-- Reading a byte other than the one just stored. -/
theorem readByte_set_ne (c : ConfigSpace) (a v x : Nat) (h : x ≠ a) :
    readByte (pci_set_byte c a v) x = readByte c x := by
  simp [readByte, pci_set_byte, h]

/-- The PCIDevice fields used by ls7a.c: bus address and the three
per-byte configuration arrays (current value, write mask, checked mask). -/
structure PCIDev where
  devfn : Nat
  config : ConfigSpace
  wmask : ConfigSpace
  cmask : ConfigSpace

/-- ls7a_reset from hw/pci-host/ls7a.c, registered with
qemu_register_reset so it runs on every system reset. Note that in the
C source wmask = ~(-1) evaluates to 0. -/
def ls7a_reset (dev : PCIDev) : PCIDev :=
  let wm : Nat := 0
  let c := dev.config
  let w := dev.wmask
  let m := dev.cmask
  let c := pci_set_word c 0x0 0x0014
  let w := pci_set_word w 0x0 (wm &&& 0xffff)
  let m := pci_set_word m 0x0 0xffff
  let c := pci_set_word c 0x2 0x7a00
  let w := pci_set_word w 0x2 (wm &&& 0xffff)
  let m := pci_set_word m 0x2 0xffff
  let c := pci_set_word c 0x4 0x0000
  let c := pci_set_word c 0x6 0x0010
  let w := pci_set_word w 0x6 (wm &&& 0xffff)
  let m := pci_set_word m 0x6 0xffff
  let c := pci_set_byte c 0x8 0x00
  let w := pci_set_byte w 0x8 (wm &&& 0xff)
  let m := pci_set_byte m 0x8 0xff
  let c := pci_set_byte c 0x9 0x00
  let w := pci_set_byte w 0x9 (wm &&& 0xff)
  let m := pci_set_byte m 0x9 0xff
  let c := pci_set_byte c 0xa 0x00
  let w := pci_set_byte w 0xa (wm &&& 0xff)
  let m := pci_set_byte m 0xa 0xff
  let c := pci_set_byte c 0xb 0x06
  let w := pci_set_byte w 0xb (wm &&& 0xff)
  let m := pci_set_byte m 0xb 0xff
  let c := pci_set_byte c 0xc 0x00
  let w := pci_set_byte w 0xc (wm &&& 0xff)
  let m := pci_set_byte m 0xc 0xff
  let c := pci_set_byte c 0xe 0x80
  let w := pci_set_byte w 0xe (wm &&& 0xff)
  let m := pci_set_byte m 0xe 0xff
  let c := pci_set_long c PCI_BASE_ADDRESS_0 0x0
  let w := pci_set_long w PCI_BASE_ADDRESS_0 (wm &&& 0xffffffff)
  let m := pci_set_long m PCI_BASE_ADDRESS_0 0xffffffff
  let c := pci_set_long c PCI_BASE_ADDRESS_1 0x0
  let w := pci_set_long w PCI_BASE_ADDRESS_1 (wm &&& 0xffffffff)
  let m := pci_set_long m PCI_BASE_ADDRESS_1 0xffffffff
  let c := pci_set_long c PCI_BASE_ADDRESS_2 0x0
  let w := pci_set_long w PCI_BASE_ADDRESS_2 (wm &&& 0xffffffff)
  let m := pci_set_long m PCI_BASE_ADDRESS_2 0xffffffff
  let c := pci_set_long c PCI_BASE_ADDRESS_3 0x00000004
  let w := pci_set_long w PCI_BASE_ADDRESS_3 (wm &&& 0xffffffff)
  let m := pci_set_long m PCI_BASE_ADDRESS_3 0xffffffff
  let c := pci_set_long c PCI_BASE_ADDRESS_4 0x0
  let w := pci_set_long w PCI_BASE_ADDRESS_4 (wm &&& 0xffffffff)
  let m := pci_set_long m PCI_BASE_ADDRESS_4 0xffffffff
  let c := pci_set_long c PCI_BASE_ADDRESS_5 0x0
  let w := pci_set_long w PCI_BASE_ADDRESS_5 (wm &&& 0xffffffff)
  let m := pci_set_long m PCI_BASE_ADDRESS_5 0xffffffff
  let c := pci_set_word c PCI_CARDBUS_CIS 0x0000
  let c := pci_set_word c 0x2c 0x0014
  let w := pci_set_word w 0x2c (wm &&& 0xffff)
  let m := pci_set_word m 0x2c 0xffff
  let c := pci_set_word c 0x2e 0x7a00
  let w := pci_set_word w 0x2e (wm &&& 0xffff)
  let m := pci_set_word m 0x2e 0xffff
  let c := pci_set_byte c 0x34 0x40
  let w := pci_set_byte w 0x34 (wm &&& 0xff)
  let m := pci_set_byte m 0x34 0xff
  let c := pci_set_byte c 0x3c 0x00
  let c := pci_set_byte c 0x3d 0x00
  let w := pci_set_byte w 0x3d (wm &&& 0xff)
  let c := pci_set_word c 0x3e 0x0000
  let c := pci_set_byte c 0x4c 0x60
  let w := pci_set_byte w 0x4c (wm &&& 0xff)
  { devfn := dev.devfn, config := c, wmask := w, cmask := m }

/-- The fixed platform IRQ table of pci_ls7a_map_irq. -/
def virq : List Nat := [3, 4, 5, 6, 7, 9, 10, 11]

/-- pci_ls7a_map_irq from hw/pci-host/ls7a.c: slot is the upper part of
devfn, pin is read from the interrupt-pin configuration byte; the
irq_num argument of the callback is not used. -/
def pci_ls7a_map_irq (d : PCIDev) (irq_num : Nat) : Nat :=
  let slot := d.devfn >>> 3
  let pin := readByte d.config PCI_INTERRUPT_PIN
  virq.getD ((pin + slot) % 8) 0

/-- Lifecycle requests that the power-management trap can issue. -/
inductive PMRequest where
  | reset
  | shutdown
deriving DecidableEq

def PM_CNTL_MODE : Nat := 0x10

/-- loongson3_pm_write from hw/mips/mips_loongson3.c, modelled as the
list of lifecycle requests the write issues. -/
def loongson3_pm_write (addr val : Nat) : List PMRequest :=
  if addr ≠ PM_CNTL_MODE then []
  else if val = 0x00 then [PMRequest.reset]
  else if val = 0xff then [PMRequest.shutdown]
  else []

/-- loongson3_pm_read from hw/mips/mips_loongson3.c: always 0. -/
def loongson3_pm_read (addr size : Nat) : Nat := 0

/-- ls7a_pci_config_read from hw/pci-host/ls7a.c, parametrised by the
pci_data_read primitive of the owning bus. -/
def ls7a_pci_config_read {S : Type} (bus : S)
    (pci_data_read : S → Nat → Nat → Nat) (addr size : Nat) : Nat :=
  let tmp_addr := if addr &&& 0x1000000 ≠ 0 then addr &&& 0xffff else addr &&& 0xffffff
  pci_data_read bus tmp_addr size

/-- ls7a_pci_config_write from hw/pci-host/ls7a.c, parametrised by the
pci_data_write primitive of the owning bus (returning its new state). -/
def ls7a_pci_config_write {S : Type} (bus : S)
    (pci_data_write : S → Nat → Nat → Nat → S) (addr val size : Nat) : S :=
  let tmp_addr := if addr &&& 0x1000000 ≠ 0 then addr &&& 0xffff else addr &&& 0xffffff
  pci_data_write bus tmp_addr val size

/-- C1: after ls7a_reset runs (it is registered as a system reset
callback, so this covers every system reset from any prior device
state), the configuration space holds the documented image: vendor word
0x0014 at 0x0, device word 0x7A00 at 0x2, revision byte 0 at 0x8, class
bytes 0x06 at 0xb and 0x00 at 0xa, BAR3 reads 0x00000004 and the other
five BARs read 0. -/
theorem ls7a_reset_image (d : PCIDev) :
    pci_get_word (ls7a_reset d).config 0x0 = 0x0014 ∧
    pci_get_word (ls7a_reset d).config 0x2 = 0x7a00 ∧
    readByte (ls7a_reset d).config 0x8 = 0x00 ∧
    readByte (ls7a_reset d).config 0xb = 0x06 ∧
    readByte (ls7a_reset d).config 0xa = 0x00 ∧
    pci_get_long (ls7a_reset d).config PCI_BASE_ADDRESS_3 = 0x00000004 ∧
    pci_get_long (ls7a_reset d).config PCI_BASE_ADDRESS_0 = 0 ∧
    pci_get_long (ls7a_reset d).config PCI_BASE_ADDRESS_1 = 0 ∧
    pci_get_long (ls7a_reset d).config PCI_BASE_ADDRESS_2 = 0 ∧
    pci_get_long (ls7a_reset d).config PCI_BASE_ADDRESS_4 = 0 ∧
    pci_get_long (ls7a_reset d).config PCI_BASE_ADDRESS_5 = 0 := by
  refine ⟨?_, ?_, ?_, ?_, ?_, ?_, ?_, ?_, ?_, ?_, ?_⟩ <;>
  · simp only [ls7a_reset, pci_set_word, pci_set_long, pci_get_word, pci_get_long,
      PCI_BASE_ADDRESS_0, PCI_BASE_ADDRESS_1, PCI_BASE_ADDRESS_2, PCI_BASE_ADDRESS_3,
      PCI_BASE_ADDRESS_4, PCI_BASE_ADDRESS_5, PCI_CARDBUS_CIS]
    norm_num [readByte_set_self, readByte_set_ne]

/-- Device used to instantiate the C1 theorem. -/
def anyDev : PCIDev :=
  { devfn := 0, config := fun _ => 0xab, wmask := fun _ => 0, cmask := fun _ => 0 }

/-- Witness for C1: the reset image evaluated on a concrete device. -/
theorem ls7a_reset_image_witness :
    pci_get_word (ls7a_reset anyDev).config 0x0 = 0x0014 ∧
    pci_get_long (ls7a_reset anyDev).config PCI_BASE_ADDRESS_3 = 0x00000004 :=
  ⟨(ls7a_reset_image anyDev).1, (ls7a_reset_image anyDev).2.2.2.2.2.1⟩

/-- C3: for slot in 0..31 and pin in 1..4 the interrupt-router mapping
returns the virq table entry at index (pin + slot) mod 8, where pin is
the configuration-space interrupt-pin byte and slot the upper bits of
devfn; the result does not depend on the callback argument, so repeated
calls agree. -/
theorem pci_ls7a_map_irq_spec (d : PCIDev) (slot pin irq_num irq_num2 : Nat)
    (hslot : d.devfn >>> 3 = slot) (hslot32 : slot < 32)
    (hpin : readByte d.config PCI_INTERRUPT_PIN = pin)
    (hpin1 : 1 ≤ pin) (hpin4 : pin ≤ 4) :
    pci_ls7a_map_irq d irq_num = virq.getD ((pin + slot) % 8) 0 ∧
    pci_ls7a_map_irq d irq_num = pci_ls7a_map_irq d irq_num2 := by
  subst hslot
  subst hpin
  exact ⟨rfl, rfl⟩

/-- Device used to instantiate the C3 theorem: slot 1, pin 1. -/
def slotOneDev : PCIDev :=
  { devfn := 8, config := fun _ => 1, wmask := fun _ => 0, cmask := fun _ => 0 }

/-- Witness for C3 at slot 1, pin 1: the routed line is virq[2] = 5. -/
theorem pci_ls7a_map_irq_spec_witness :
    pci_ls7a_map_irq slotOneDev 0 = virq.getD ((1 + 1) % 8) 0 ∧
    pci_ls7a_map_irq slotOneDev 0 = pci_ls7a_map_irq slotOneDev 7 :=
  pci_ls7a_map_irq_spec slotOneDev 1 1 0 7 rfl (by decide) rfl (by decide) (by decide)

/-- C4: a write of 0x00 to the control offset issues exactly one reset
request and nothing else; a write of 0xFF issues exactly one shutdown
request and nothing else; any other value, or any other offset, issues
nothing; reads always return 0. -/
theorem loongson3_pm_semantics :
    loongson3_pm_write PM_CNTL_MODE 0x00 = [PMRequest.reset] ∧
    loongson3_pm_write PM_CNTL_MODE 0xff = [PMRequest.shutdown] ∧
    (∀ v, v ≠ 0x00 → v ≠ 0xff → loongson3_pm_write PM_CNTL_MODE v = []) ∧
    (∀ a v, a ≠ PM_CNTL_MODE → loongson3_pm_write a v = []) ∧
    (∀ a s, loongson3_pm_read a s = 0) := by
  refine ⟨rfl, rfl, ?_, ?_, fun a s => rfl⟩
  · intro v h0 hff
    simp [loongson3_pm_write, PM_CNTL_MODE, h0, hff]
  · intro a v ha
    simp [loongson3_pm_write, ha]

/-- Witness for C4: concrete other-value and other-offset writes and a
read, via the main theorem. -/
theorem loongson3_pm_semantics_witness :
    loongson3_pm_write PM_CNTL_MODE 0x37 = [] ∧
    loongson3_pm_write 0x20 0x00 = [] ∧
    loongson3_pm_read 0x40 4 = 0 :=
  ⟨loongson3_pm_semantics.2.2.1 0x37 (by decide) (by decide),
   loongson3_pm_semantics.2.2.2.1 0x20 0x00 (by decide),
   loongson3_pm_semantics.2.2.2.2 0x40 4⟩

/-- C5: both extended-configuration accessors fold the address with the
16-bit mask when bit 0x1000000 is set and with the 24-bit mask
otherwise, and delegate verbatim to the PCI configuration primitive. -/
theorem ls7a_pci_config_fold {S : Type} (bus : S)
    (f : S → Nat → Nat → Nat) (g : S → Nat → Nat → Nat → S)
    (addr val size : Nat) :
    ls7a_pci_config_read bus f addr size =
      f bus (if addr &&& 0x1000000 ≠ 0 then addr &&& 0xffff else addr &&& 0xffffff) size ∧
    ls7a_pci_config_write bus g addr val size =
      g bus (if addr &&& 0x1000000 ≠ 0 then addr &&& 0xffff else addr &&& 0xffffff) val size :=
  ⟨rfl, rfl⟩

/-- Witness for C5: the fold evaluated at one long-form and one
short-form address. -/
theorem ls7a_pci_config_fold_witness :
    ls7a_pci_config_read 0 (fun _ a _ => a) 0x1234567 4 = 0x4567 ∧
    ls7a_pci_config_read 0 (fun _ a _ => a) 0x234567 4 = 0x234567 := by
  have h1 := (ls7a_pci_config_fold (S := Nat) 0 (fun _ a _ => a)
    (fun b _ _ _ => b) 0x1234567 0 4).1
  have h2 := (ls7a_pci_config_fold (S := Nat) 0 (fun _ a _ => a)
    (fun b _ _ _ => b) 0x234567 0 4).1
  refine ⟨h1.trans (by decide), h2.trans (by decide)⟩

def UINT64_LIMIT : Nat := 2 ^ 64
def UINT32_LIMIT : Nat := 2 ^ 32

/-- One entry of the EFI memory map record (mem_size is a uint32). -/
structure MemMapEntry where
  node_id : Nat
  mem_type : Nat
  mem_start : Nat
  mem_size : Nat

/-- The part of struct efi_memory_map_loongson that init_memory_map
fills in (two entries of the 128-entry array are used). -/
structure EfiMemoryMapLoongson where
  nr_map : Nat
  mem_freq : Nat
  map0 : MemMapEntry
  map1 : MemMapEntry

/-- init_memory_map from hw/mips/mips_loongson3.c. The C expression
computes in unsigned long (wrap modulo 2 ^ 64) and assigns the result
to the uint32 mem_size field (modulo 2 ^ 32); subtracting 16 is
a - 16 = (a + 2 ^ 64 - 16) mod 2 ^ 64 in that arithmetic. -/
def init_memory_map (ram_size : Nat) : EfiMemoryMapLoongson :=
  { nr_map := 2
    mem_freq := 300000000
    map0 := { node_id := 0, mem_type := 1, mem_start := 0x0,
              mem_size := (((if ram_size > 0x10000000 then 256 else ram_size >>> 20) +
                            (UINT64_LIMIT - 16)) % UINT64_LIMIT) % UINT32_LIMIT }
    map1 := { node_id := 0, mem_type := 2, mem_start := 0x90000000,
              mem_size := (if ram_size > 0x10000000 then
                             ((ram_size >>> 20) + (UINT64_LIMIT - 256)) % UINT64_LIMIT
                           else 0) % UINT32_LIMIT } }

/-- C2 counterexample: with 512 MiB of RAM the low memory-map entry
holds 240 (the code subtracts 16 MiB), not the 256 the claim states. -/
theorem init_memory_map_cex :
    (init_memory_map (512 * 1048576)).map0.mem_size ≠ 256 := by decide

/-- C2 amended: over the RAM sizes the machine accepts (at least
256 MiB; bounded so the uint32 size field does not truncate), the low
entry holds ((R ≤ 256 MiB) ? R>>20 : 256) - 16 megabytes and the high
entry holds (R > 256 MiB) ? (R>>20) - 256 : 0 megabytes. -/
theorem init_memory_map_sizes (R : Nat) (hlo : 0x10000000 ≤ R) (hhi : R < 2 ^ 52) :
    (R ≤ 0x10000000 →
      (init_memory_map R).map0.mem_size = (R >>> 20) - 16 ∧
      (init_memory_map R).map1.mem_size = 0) ∧
    (0x10000000 < R →
      (init_memory_map R).map0.mem_size = 240 ∧
      (init_memory_map R).map1.mem_size = (R >>> 20) - 256) := by
  have hhi2 : R < 4503599627370496 := by norm_num at hhi; exact hhi
  constructor
  · intro hle
    have hR : R = 0x10000000 := le_antisymm hle hlo
    subst hR
    exact ⟨by decide, by decide⟩
  · intro hlt
    constructor
    · simp only [init_memory_map]
      rw [if_pos hlt]
      norm_num [UINT64_LIMIT, UINT32_LIMIT]
    · simp only [init_memory_map]
      rw [if_pos hlt, Nat.shiftRight_eq_div_pow]
      have hU : UINT64_LIMIT = 18446744073709551616 := by norm_num [UINT64_LIMIT]
      have h32 : UINT32_LIMIT = 4294967296 := by norm_num [UINT32_LIMIT]
      have hp : (2 : Nat) ^ 20 = 1048576 := by norm_num
      rw [hU, h32, hp]
      omega

/-- Witness for C2 (amended): evaluated at 512 MiB. -/
theorem init_memory_map_sizes_witness :
    (init_memory_map 536870912).map0.mem_size = 240 ∧
    (init_memory_map 536870912).map1.mem_size = (536870912 >>> 20) - 256 :=
  (init_memory_map_sizes 536870912 (by decide) (by decide)).2 (by decide)

/-- The align macro of hw/mips/mips_loongson3.c:
align(x) = ((x) + 63) & ~63 in 64-bit arithmetic. -/
def align (x : Nat) : Nat := ((x + 63) % UINT64_LIMIT) &&& (UINT64_LIMIT - 64)

/-- The offset fields of struct loongson_params. -/
structure LoongsonParamsOffsets where
  memory_offset : Nat
  cpu_offset : Nat
  system_offset : Nat
  irq_offset : Nat
  interface_offset : Nat
  special_offset : Nat
  boarddev_table_offset : Nat

/-- init_loongson_params from hw/mips/mips_loongson3.c: lp is the
address of the loongson_params anchor, p0 the initial boot_params_p
cursor, and the sz arguments are the sizeof values of the seven record
structs (compile-time ABI constants). Each record is written at the
cursor, its offset stored as cursor minus anchor, and the cursor then
advances by the 64-byte-aligned record size; the final cursor is
returned (the new boot_params_p). -/
def init_loongson_params (lp p0 szMem szCpu szSys szIrq szIf szBoard szSpecial : Nat) :
    LoongsonParamsOffsets × Nat :=
  let p1 := p0 + align szMem
  let p2 := p1 + align szCpu
  let p3 := p2 + align szSys
  let p4 := p3 + align szIrq
  let p5 := p4 + align szIf
  let p6 := p5 + align szBoard
  let p7 := p6 + align szSpecial
  ({ memory_offset := p0 - lp
     cpu_offset := p1 - lp
     system_offset := p2 - lp
     irq_offset := p3 - lp
     interface_offset := p4 - lp
     boarddev_table_offset := p5 - lp
     special_offset := p6 - lp }, p7)

/-- C6: in the chain built in the fixed order memory map, CPU info,
system info, IRQ routing, interface info, board devices, special
attribute, every stored offset equals the record start minus the
anchor, and consecutive offsets differ by exactly the 64-byte-aligned
size of the intervening record; the final cursor sits past the last
record. -/
theorem init_loongson_params_chain
    (lp p0 szMem szCpu szSys szIrq szIf szBoard szSpecial : Nat) (h : lp ≤ p0)
    (r : LoongsonParamsOffsets)
    (hr : r = (init_loongson_params lp p0 szMem szCpu szSys szIrq szIf szBoard szSpecial).1) :
    r.memory_offset = p0 - lp ∧
    r.cpu_offset = (p0 + align szMem) - lp ∧
    r.system_offset = (p0 + align szMem + align szCpu) - lp ∧
    r.irq_offset = (p0 + align szMem + align szCpu + align szSys) - lp ∧
    r.interface_offset = (p0 + align szMem + align szCpu + align szSys + align szIrq) - lp ∧
    r.boarddev_table_offset =
      (p0 + align szMem + align szCpu + align szSys + align szIrq + align szIf) - lp ∧
    r.special_offset =
      (p0 + align szMem + align szCpu + align szSys + align szIrq + align szIf +
        align szBoard) - lp ∧
    r.cpu_offset = r.memory_offset + align szMem ∧
    r.system_offset = r.cpu_offset + align szCpu ∧
    r.irq_offset = r.system_offset + align szSys ∧
    r.interface_offset = r.irq_offset + align szIrq ∧
    r.boarddev_table_offset = r.interface_offset + align szIf ∧
    r.special_offset = r.boarddev_table_offset + align szBoard ∧
    (init_loongson_params lp p0 szMem szCpu szSys szIrq szIf szBoard szSpecial).2 =
      p0 + align szMem + align szCpu + align szSys + align szIrq + align szIf +
        align szBoard + align szSpecial := by
  subst hr
  refine ⟨?_, ?_, ?_, ?_, ?_, ?_, ?_, ?_, ?_, ?_, ?_, ?_, ?_, ?_⟩ <;>
    simp only [init_loongson_params] <;> omega

/-- Witness for C6: the chain evaluated at a concrete anchor, cursor
and the concrete record sizes of the seven structs. -/
theorem init_loongson_params_chain_witness :
    (init_loongson_params 256 384 2570 90 9076 84 69 11336 11336).1.memory_offset =
      384 - 256 ∧
    (init_loongson_params 256 384 2570 90 9076 84 69 11336 11336).1.cpu_offset =
      (384 + align 2570) - 256 ∧
    (init_loongson_params 256 384 2570 90 9076 84 69 11336 11336).1.system_offset =
      (384 + align 2570 + align 90) - 256 ∧
    (init_loongson_params 256 384 2570 90 9076 84 69 11336 11336).1.irq_offset =
      (384 + align 2570 + align 90 + align 9076) - 256 ∧
    (init_loongson_params 256 384 2570 90 9076 84 69 11336 11336).1.interface_offset =
      (384 + align 2570 + align 90 + align 9076 + align 84) - 256 ∧
    (init_loongson_params 256 384 2570 90 9076 84 69 11336 11336).1.boarddev_table_offset =
      (384 + align 2570 + align 90 + align 9076 + align 84 + align 69) - 256 ∧
    (init_loongson_params 256 384 2570 90 9076 84 69 11336 11336).1.special_offset =
      (384 + align 2570 + align 90 + align 9076 + align 84 + align 69 +
        align 11336) - 256 ∧
    (init_loongson_params 256 384 2570 90 9076 84 69 11336 11336).1.cpu_offset =
      (init_loongson_params 256 384 2570 90 9076 84 69 11336 11336).1.memory_offset +
        align 2570 ∧
    (init_loongson_params 256 384 2570 90 9076 84 69 11336 11336).1.system_offset =
      (init_loongson_params 256 384 2570 90 9076 84 69 11336 11336).1.cpu_offset +
        align 90 ∧
    (init_loongson_params 256 384 2570 90 9076 84 69 11336 11336).1.irq_offset =
      (init_loongson_params 256 384 2570 90 9076 84 69 11336 11336).1.system_offset +
        align 9076 ∧
    (init_loongson_params 256 384 2570 90 9076 84 69 11336 11336).1.interface_offset =
      (init_loongson_params 256 384 2570 90 9076 84 69 11336 11336).1.irq_offset +
        align 84 ∧
    (init_loongson_params 256 384 2570 90 9076 84 69 11336 11336).1.boarddev_table_offset =
      (init_loongson_params 256 384 2570 90 9076 84 69 11336 11336).1.interface_offset +
        align 69 ∧
    (init_loongson_params 256 384 2570 90 9076 84 69 11336 11336).1.special_offset =
      (init_loongson_params 256 384 2570 90 9076 84 69 11336 11336).1.boarddev_table_offset +
        align 11336 ∧
    (init_loongson_params 256 384 2570 90 9076 84 69 11336 11336).2 =
      384 + align 2570 + align 90 + align 9076 + align 84 + align 69 +
        align 11336 + align 11336 :=
  init_loongson_params_chain 256 384 2570 90 9076 84 69 11336 11336 (by decide)
    (init_loongson_params 256 384 2570 90 9076 84 69 11336 11336).1 rfl

def BOOTPARAM_PHYADDR : Nat := 0x0ff00000

/-- The outputs of set_prom_bootparam that later stages consume: the
two environment strings passed to setenv and the three seeded loader
registers. -/
structure PromBootparam where
  memenv : String
  highmemenv : String
  a0 : Nat
  a1 : Nat
  a2 : Nat

/-- set_prom_bootparam from hw/mips/mips_loongson3.c. ret accumulates
the command-line blob length: 16 bytes of argv/terminator slots, then
1 + snprintf for argv0 ("g", length 1), then 1 + argv1_len where
argv1_len is the snprintf return value for argv1 (the kernel command
line when there is no ram-disk, the formatted rd_start/rd_size string
otherwise), then rounding up with (ret + 32) & ~31 in int arithmetic.
The environment strings are the %ld renderings of the low/high memory
split in MiB and a0/a1/a2 are the seeded register values. -/
def set_prom_bootparam (ram_size argv1_len : Nat) : PromBootparam :=
  let ret0 := (3 + 1) * 4
  let ret1 := ret0 + (1 + 1)
  let ret2 := ret1 + (1 + argv1_len)
  let ret3 := (ret2 + 32) &&& 0xffffffe0
  { memenv := toString (if ram_size > 0x10000000 then 256 else ram_size >>> 20)
    highmemenv := toString (if ram_size > 0x10000000 then (ram_size >>> 20) - 256 else 0)
    a0 := 2
    a1 := 0xffffffff80000000 + BOOTPARAM_PHYADDR
    a2 := 0xffffffff80000000 + BOOTPARAM_PHYADDR + ret3 }

def INITRD_OFFSET : Nat := 0x03ea0000

/-- Modelled from the spec: INITRD_PAGE_MASK comes from a header that
is not under src, and the spec says the ram-disk is placed at the first
page-aligned address at or above the kernel end, so this rounds an
address up to the next multiple of the page size 2 ^ page_bits. -/
def alignUpPage (a page_bits : Nat) : Nat :=
  ((a + (2 ^ page_bits - 1)) / 2 ^ page_bits) * 2 ^ page_bits

/-- The ram-disk inputs of load_kernel: the get_image_size result, the
load_image_targphys result were the image loaded, and the snprintf
length of the formatted rd_start/rd_size argv1 string. -/
structure InitrdInput where
  size : Int
  load_result : Int
  argv1_len : Nat

/-- The inputs load_kernel reads: the load_elf result (negative on
failure), the recorded entry point and highest occupied address, the
ram-disk page-alignment width, configured RAM, and the kernel
command-line length. -/
structure LoadInput where
  kernel_size : Int
  kernel_entry : Nat
  kernel_high : Nat
  page_bits : Nat
  ram_size : Nat
  cmdline_len : Nat
  initrd : Option InitrdInput

/-- The fatal error cases of load_kernel (each exits the process after
reporting the offending file). -/
inductive LoadError where
  | kernel_not_loaded
  | initrd_too_large
  | initrd_not_loaded
deriving DecidableEq

/-- What a successful load_kernel run produces: the kernel entry, the
chosen ram-disk placement, and the boot parameters. -/
structure LoadOutput where
  kernel_entry : Nat
  initrd_offset : Nat
  prom : PromBootparam

/-- load_kernel from hw/mips/mips_loongson3.c. The fatal exit(1) paths
are the error results; set_prom_bootparam runs only on the success
path, after the ram-disk checks. -/
def load_kernel (inp : LoadInput) : Except LoadError LoadOutput :=
  if inp.kernel_size < 0 then Except.error LoadError.kernel_not_loaded
  else
    match inp.initrd with
    | none =>
      Except.ok { kernel_entry := inp.kernel_entry, initrd_offset := 0,
                  prom := set_prom_bootparam inp.ram_size inp.cmdline_len }
    | some ird =>
      if 0 < ird.size then
        let off := max (alignUpPage inp.kernel_high inp.page_bits) INITRD_OFFSET
        if inp.ram_size < off + ird.size.toNat then Except.error LoadError.initrd_too_large
        else if ird.load_result = -1 then Except.error LoadError.initrd_not_loaded
        else Except.ok { kernel_entry := inp.kernel_entry, initrd_offset := off,
                         prom := set_prom_bootparam inp.ram_size ird.argv1_len }
      else if ird.size = -1 then Except.error LoadError.initrd_not_loaded
      else Except.ok { kernel_entry := inp.kernel_entry, initrd_offset := 0,
                       prom := set_prom_bootparam inp.ram_size inp.cmdline_len }

/-- The architectural CPU state main_cpu_reset touches, plus an opaque
remainder standing for everything else: gpr is the general-purpose
register file, pc the program counter, cp0_status the CP0 Status
register, rest all state main_cpu_reset never names. The input of
main_cpu_reset is the state just produced by the generic cpu_reset. -/
structure CPUState where
  gpr : Nat → Nat
  pc : Nat
  cp0_status : Nat
  rest : Nat

/-- The loaderparams fields main_cpu_reset reads. -/
structure LoaderParams where
  kernel_loaded : Bool
  a0 : Nat
  a1 : Nat
  a2 : Nat
  kernel_entry : Nat

/-- CP0St_BEV = 22 and CP0St_ERL = 2 are the standard MIPS Status bit
positions (the CPU model is outside src); clearing them inside the
32-bit register multiplies out to this and-mask. -/
def CP0_STATUS_CLEAR_MASK : Nat := 0xffbffffb

/-- main_cpu_reset from hw/mips/mips_loongson3.c, applied to the state
s that the generic cpu_reset just produced: with a kernel loaded, the
first CPU gets a0/a1/a2 and the entry point seeded, and every CPU gets
the BEV and ERL bits of CP0 Status cleared; without a kernel the state
is left as cpu_reset made it. -/
def main_cpu_reset (lp : LoaderParams) (is_first : Bool) (s : CPUState) : CPUState :=
  if lp.kernel_loaded then
    let s1 :=
      if is_first then
        { s with
          gpr := fun i =>
            if i = 4 then lp.a0 else if i = 5 then lp.a1 else if i = 6 then lp.a2 else s.gpr i
          pc := lp.kernel_entry }
      else s
    { s1 with cp0_status := s1.cp0_status &&& CP0_STATUS_CLEAR_MASK }
  else s

/-- loaderparams as set on the load_kernel success path, consumed by
main_cpu_reset. -/
def lpOf (out : LoadOutput) : LoaderParams :=
  { kernel_loaded := true, a0 := out.prom.a0, a1 := out.prom.a1, a2 := out.prom.a2,
    kernel_entry := out.kernel_entry }

/-- C7: with 512 MiB of RAM, a valid kernel and no ram-disk, the loader
succeeds, the memsize environment string is "256", the highmemsize
string is "256", and on reset the boot CPU is seeded with a0 = 2,
a1 = the boot-params guest-virtual address and a2 = that address plus
the rounded command-line blob length, with the program counter at the
kernel entry. -/
theorem load_kernel_512M (inp : LoadInput) (s : CPUState)
    (hk : 0 ≤ inp.kernel_size) (hird : inp.initrd = none)
    (hram : inp.ram_size = 536870912) :
    ∃ out, load_kernel inp = Except.ok out ∧
      out.prom.memenv = "256" ∧
      out.prom.highmemenv = "256" ∧
      out.prom.a0 = 2 ∧
      out.prom.a1 = 0xffffffff80000000 + BOOTPARAM_PHYADDR ∧
      out.prom.a2 = out.prom.a1 + (((3 + 1) * 4 + (1 + 1) + (1 + inp.cmdline_len) + 32) &&& 0xffffffe0) ∧
      (main_cpu_reset (lpOf out) true s).gpr 4 = 2 ∧
      (main_cpu_reset (lpOf out) true s).gpr 5 = out.prom.a1 ∧
      (main_cpu_reset (lpOf out) true s).gpr 6 = out.prom.a2 ∧
      (main_cpu_reset (lpOf out) true s).pc = out.kernel_entry := by
  have hk2 : ¬ inp.kernel_size < 0 := not_lt.mpr hk
  refine ⟨{ kernel_entry := inp.kernel_entry, initrd_offset := 0,
            prom := set_prom_bootparam inp.ram_size inp.cmdline_len }, ?_,
          ?_, ?_, rfl, rfl, rfl, rfl, rfl, rfl, rfl⟩
  · simp [load_kernel, hird, hk2]
  · rw [hram]; rfl
  · rw [hram]; rfl

/-- Concrete load_kernel input used to instantiate C7: valid kernel,
no ram-disk, 512 MiB of RAM, a 7-byte command line. -/
def input512 : LoadInput :=
  { kernel_size := 0, kernel_entry := 0x80200000, kernel_high := 0x1000000,
    page_bits := 16, ram_size := 536870912, cmdline_len := 7, initrd := none }

/-- Concrete post-cpu_reset state used to instantiate C7. -/
def cleanCPU : CPUState := { gpr := fun _ => 0, pc := 0, cp0_status := 0, rest := 0 }

/-- Witness for C7: the 512 MiB scenario at a concrete input. -/
theorem load_kernel_512M_witness :
    ∃ out, load_kernel input512 = Except.ok out ∧
      out.prom.memenv = "256" ∧
      out.prom.highmemenv = "256" ∧
      out.prom.a0 = 2 ∧
      out.prom.a1 = 0xffffffff80000000 + BOOTPARAM_PHYADDR ∧
      out.prom.a2 = out.prom.a1 + (((3 + 1) * 4 + (1 + 1) + (1 + input512.cmdline_len) + 32) &&& 0xffffffe0) ∧
      (main_cpu_reset (lpOf out) true cleanCPU).gpr 4 = 2 ∧
      (main_cpu_reset (lpOf out) true cleanCPU).gpr 5 = out.prom.a1 ∧
      (main_cpu_reset (lpOf out) true cleanCPU).gpr 6 = out.prom.a2 ∧
      (main_cpu_reset (lpOf out) true cleanCPU).pc = out.kernel_entry :=
  load_kernel_512M input512 cleanCPU (by decide) rfl rfl

/-- C8: with a ram-disk of positive size and a loadable kernel, the
placement is the first page-aligned address at or above both the
kernel end and the fixed minimum offset; if that placement plus the
ram-disk size exceeds configured RAM, load_kernel stops with the
ram-disk-too-large fatal error (so no boot parameters are assembled:
set_prom_bootparam is only reached on the ok path); any successful run
records exactly that placement. -/
theorem load_kernel_initrd_guard (inp : LoadInput) (ird : InitrdInput)
    (hird : inp.initrd = some ird) (hsz : 0 < ird.size) (hk : 0 ≤ inp.kernel_size) :
    (inp.ram_size < max (alignUpPage inp.kernel_high inp.page_bits) INITRD_OFFSET + ird.size.toNat →
      load_kernel inp = Except.error LoadError.initrd_too_large) ∧
    (∀ out, load_kernel inp = Except.ok out →
      out.initrd_offset = max (alignUpPage inp.kernel_high inp.page_bits) INITRD_OFFSET) := by
  have hk2 : ¬ inp.kernel_size < 0 := not_lt.mpr hk
  constructor
  · intro hbig
    simp [load_kernel, hird, hk2, hsz, hbig]
  · intro out hout
    simp only [load_kernel, if_neg hk2, hird] at hout
    rw [if_pos hsz] at hout
    by_cases hbig : inp.ram_size <
        max (alignUpPage inp.kernel_high inp.page_bits) INITRD_OFFSET + ird.size.toNat
    · rw [if_pos hbig] at hout
      exact absurd hout (by simp)
    · rw [if_neg hbig] at hout
      by_cases hlr : ird.load_result = -1
      · rw [if_pos hlr] at hout
        exact absurd hout (by simp)
      · rw [if_neg hlr] at hout
        cases hout
        rfl

/-- Concrete load_kernel input used to instantiate C8: a 256 MiB
ram-disk that cannot fit below 256 MiB of RAM. -/
def inputBigInitrd : LoadInput :=
  { kernel_size := 0, kernel_entry := 0x80200000, kernel_high := 0x1000000,
    page_bits := 16, ram_size := 268435456, cmdline_len := 0,
    initrd := some { size := 268435456, load_result := 0, argv1_len := 0 } }

/-- Witness for C8: the oversized ram-disk scenario at a concrete
input ends in the fatal too-large error. -/
theorem load_kernel_initrd_guard_witness :
    load_kernel inputBigInitrd = Except.error LoadError.initrd_too_large :=
  (load_kernel_initrd_guard inputBigInitrd
      { size := 268435456, load_result := 0, argv1_len := 0 }
      rfl (by decide) (by decide)).1 (by decide)

/-- Concrete post-cpu_reset state with BEV and ERL set in CP0 Status,
as the MIPS power-on state has them. -/
def bevErlCPU : CPUState := { gpr := fun _ => 0, pc := 0, cp0_status := 0x00400004, rest := 0 }

/-- loaderparams with a kernel loaded, used for the C9 counterexample. -/
def kernelLP : LoaderParams :=
  { kernel_loaded := true, a0 := 2, a1 := 0, a2 := 0, kernel_entry := 0 }

/-- C9 counterexample: with a kernel loaded, a non-first CPU is not
left in its plain post-cpu_reset state: the reset handler clears the
BEV and ERL bits of CP0 Status on every CPU. -/
theorem main_cpu_reset_not_identity :
    main_cpu_reset kernelLP false bevErlCPU ≠ bevErlCPU := by
  intro h
  exact absurd (congrArg CPUState.cp0_status h) (by decide)

/-- C9 amended: when a kernel is loaded, a non-first CPU keeps its
post-cpu_reset register file, program counter and remaining state
unchanged, and only CP0 Status changes, by clearing the BEV and ERL
bits; without a kernel the handler changes nothing at all. -/
theorem main_cpu_reset_secondary (lp : LoaderParams) (s : CPUState)
    (hl : lp.kernel_loaded = true) :
    (main_cpu_reset lp false s).gpr = s.gpr ∧
    (main_cpu_reset lp false s).pc = s.pc ∧
    (main_cpu_reset lp false s).rest = s.rest ∧
    (main_cpu_reset lp false s).cp0_status = s.cp0_status &&& CP0_STATUS_CLEAR_MASK ∧
    (∀ lp2 : LoaderParams, lp2.kernel_loaded = false →
      main_cpu_reset lp2 false s = s) := by
  refine ⟨?_, ?_, ?_, ?_, ?_⟩
  · simp [main_cpu_reset, hl]
  · simp [main_cpu_reset, hl]
  · simp [main_cpu_reset, hl]
  · simp [main_cpu_reset, hl]
  · intro lp2 h2
    simp [main_cpu_reset, h2]

/-- Witness for C9 (amended): the frame of a non-first CPU at a
concrete state. -/
theorem main_cpu_reset_secondary_witness :
    (main_cpu_reset kernelLP false bevErlCPU).pc = bevErlCPU.pc ∧
    (main_cpu_reset kernelLP false bevErlCPU).rest = bevErlCPU.rest ∧
    (main_cpu_reset kernelLP false bevErlCPU).cp0_status =
      bevErlCPU.cp0_status &&& CP0_STATUS_CLEAR_MASK :=
  ⟨(main_cpu_reset_secondary kernelLP bevErlCPU rfl).2.1,
   (main_cpu_reset_secondary kernelLP bevErlCPU rfl).2.2.1,
   (main_cpu_reset_secondary kernelLP bevErlCPU rfl).2.2.2.1⟩

/-- The RAM guard at the head of mips_loongson3_init: too little RAM
reports a fatal error before any CPU or device is created; otherwise
initialization proceeds and the smp_cpus CPUs are created. The ok
payload lists the created CPU indices. -/
def mips_loongson3_init (ram_size smp_cpus : Nat) : Except String (List Nat) :=
  if ram_size < 256 * 0x100000 then
    Except.error "Loongson-3 need at least 256MB memory"
  else
    Except.ok (List.range smp_cpus)

/-- C10: machine initialization fails fatally with the descriptive
error, creating no CPU, for every RAM size below 256 MiB, and proceeds
to create the CPUs for every RAM size at or above 256 MiB. -/
theorem mips_loongson3_init_ram_guard (ram_size smp_cpus : Nat) :
    (ram_size < 256 * 0x100000 →
      mips_loongson3_init ram_size smp_cpus =
        Except.error "Loongson-3 need at least 256MB memory") ∧
    (256 * 0x100000 ≤ ram_size →
      mips_loongson3_init ram_size smp_cpus = Except.ok (List.range smp_cpus)) := by
  constructor
  · intro h
    simp [mips_loongson3_init, h]
  · intro h
    simp [mips_loongson3_init, not_lt.mpr h]

/-- Witness for C10: 255 MiB fails fatally, 256 MiB proceeds with the
CPUs created. -/
theorem mips_loongson3_init_ram_guard_witness :
    mips_loongson3_init 267386880 4 =
      Except.error "Loongson-3 need at least 256MB memory" ∧
    mips_loongson3_init 268435456 4 = Except.ok (List.range 4) :=
  ⟨(mips_loongson3_init_ram_guard 267386880 4).1 (by decide),
   (mips_loongson3_init_ram_guard 268435456 4).2 (by decide)⟩
